import Mathlib

/-!
Verification development for the Job-matcher-AI harvesting orchestrator
(backend/app/scrapers).  The Python source is shallowly embedded: each
relevant function is translated into an executable Lean definition, network
and page-parsing effects become explicit inputs, and exceptions become an
explicit outcome type.  Theorems at the end settle the specification claims
against these definitions.
-/

namespace JobMatcher

/-- Substring test, modelling the Python `pat in s` operator for non-empty
`pat`: `s.splitOn pat` has more than one part exactly when `pat` occurs. -/
def strContainsSub (s pat : String) : Bool :=
  (s.splitOn pat).length != 1

/-- Python `a or b` on optional strings: an empty string is falsy. -/
def pyOrStr (a b : Option String) : Option String :=
  match a with
  | some s => if s != "" then some s else b
  | none => b

/-- Python `str.strip()` (default whitespace), over the character list. -/
def pyStrip (s : String) : String :=
  ⟨((s.data.dropWhile Char.isWhitespace).reverse.dropWhile
      Char.isWhitespace).reverse⟩

/-- Python `str.upper()` for the ASCII country codes used here, over the
character list. -/
def pyUpper (s : String) : String :=
  ⟨s.data.map Char.toUpper⟩

/-- Python `s.startswith(pre)`, over the character lists. -/
def pyStartsWith (s pre : String) : Bool :=
  pre.data.isPrefixOf s.data

/-! ## Orchestrator level (scraper_manager.py)

At the manager level a job is a Python dict; `_remove_duplicates` reads only
`url`, `title` and `company` (via `.get` with `""` default), so the embedded
record carries exactly those fields. -/

/-- A job dict as consumed by `ScraperManager._remove_duplicates`. -/
structure Job where
  url : String
  title : String
  company : String
  deriving Repr, DecidableEq

namespace ScraperManager

/-- Outcome of awaiting one scraper coroutine: it either returns a list of
job dicts or raises an exception with a message. -/
inductive ScrapeOutcome where
  | ok (jobs : List Job)
  | exn (msg : String)
  deriving Repr, DecidableEq

/-- `_scrape_platform_safe` (scraper_manager.py lines 110-126): awaits
`scraper.scrape_jobs` and catches every `Exception`, returning `[]`. -/
def scrapePlatformSafe : ScrapeOutcome → List Job
  | .ok js => js
  | .exn _ => []

/-- `PlatformStatus` as constructed in `scrape_all_platforms`. -/
structure PlatformStatus where
  platform : String
  status : String
  jobs_found : Nat
  error : Option String
  deriving Repr, DecidableEq

/-- The `f"{title.lower()}_{company.lower()}"` identity key of
`_remove_duplicates`. -/
def jobCombination (j : Job) : String :=
  j.title.toLower ++ "_" ++ j.company.toLower

/-- The loop body of `_remove_duplicates` (lines 128-146): `seenUrls` and
`seenCombos` are the two `seen` sets (a list models set membership). -/
def removeDuplicatesGo : List Job → List String → List String → List Job
  | [], _, _ => []
  | j :: rest, seenUrls, seenCombos =>
    if seenUrls.contains j.url || seenCombos.contains (jobCombination j) then
      removeDuplicatesGo rest seenUrls seenCombos
    else
      j :: removeDuplicatesGo rest (j.url :: seenUrls)
        (jobCombination j :: seenCombos)

/-- `ScraperManager._remove_duplicates`: keep the first job for each URL and
for each title+company combination. -/
def removeDuplicates (jobs : List Job) : List Job :=
  removeDuplicatesGo jobs [] []

/-- One element of the list produced by `asyncio.gather(...,
return_exceptions=True)`: either a returned list or a captured exception.
Because every task is `_scrape_platform_safe`, which catches everything,
only the `list` constructor is ever produced in this program. -/
inductive GatherItem where
  | list (jobs : List Job)
  | exc (msg : String)
  deriving Repr, DecidableEq

/-- What `gather` delivers for one platform task: the safe wrapper's list,
or `[]` for every task when the global 120 s `wait_for` fires (line 55
replaces `results` by `[[] for _ in tasks]`). -/
def gatherOutcome (globalTimeout : Bool) (o : ScrapeOutcome) : GatherItem :=
  if globalTimeout then .list [] else .list (scrapePlatformSafe o)

/-- The classification loop of `scrape_all_platforms` (lines 61-87): an
exception result yields a `failed` status with zero jobs, a list result is
appended to `all_jobs` and yields a `success` status. -/
def collectLoop : List (String × GatherItem) → List Job × List PlatformStatus
  | [] => ([], [])
  | (name, item) :: rest =>
    let tail := collectLoop rest
    match item with
    | .exc m => (tail.1, ⟨name, "failed", 0, some m⟩ :: tail.2)
    | .list l => (l ++ tail.1, ⟨name, "success", l.length, none⟩ :: tail.2)

/-- `scrape_all_platforms` (lines 24-108) over an arbitrary registered
adapter list: fan out through the safe wrapper, classify each result, then
deduplicate the merged list.  Returns (unique_jobs, platform_statuses). -/
def scrapeAllPlatforms (scrapers : List (String × ScrapeOutcome))
    (globalTimeout : Bool) : List Job × List PlatformStatus :=
  let pairs := scrapers.map (fun p => (p.1, gatherOutcome globalTimeout p.2))
  let collected := collectLoop pairs
  (removeDuplicates collected.1, collected.2)

/-- Number of adapters whose own coroutine fails (raises). -/
def failingCount (scrapers : List (String × ScrapeOutcome)) : Nat :=
  (scrapers.filter (fun p =>
    match p.2 with | .exn _ => true | .ok _ => false)).length

/-- Number of reported statuses with `status == "failed"`. -/
def failedStatusCount (sts : List PlatformStatus) : Nat :=
  (sts.filter (fun s => s.status == "failed")).length

/-- The three concrete scraper classes registered by `ScraperManager`. -/
inductive Platform where
  | indeed
  | linkedin
  | glassdoor
  deriving Repr, DecidableEq

/-- Which scraper classes define a `scrape_jobs` method: from the source,
`IndeedScraper` defines `scrape_jobs` (indeed_scraper.py line 28) while
`LinkedInScraper` and `GlassdoorScraper` (and their base `BaseScraper`)
define only `scrape`. -/
def definesScrapeJobs : Platform → Bool
  | .indeed => true
  | .linkedin => false
  | .glassdoor => false

/-- Evaluating `scraper.scrape_jobs(...)`: attribute lookup raises
`AttributeError` when the class does not define the method; otherwise the
method body's own outcome (`impl`). -/
def callScrapeJobs (impl : Platform → ScrapeOutcome) (p : Platform) :
    ScrapeOutcome :=
  if definesScrapeJobs p then impl p else .exn "AttributeError"

/-- The registry built in `ScraperManager.__init__` (lines 16-21), in dict
insertion order. -/
def managerPlatforms : List (String × Platform) :=
  [("indeed", .indeed), ("linkedin", .linkedin), ("glassdoor", .glassdoor)]

/-- `scrape_all_platforms` on the actual registry, with each platform's
`scrape_jobs` attribute resolved as the Python interpreter would. -/
def scrapeAllPlatformsManager (impl : Platform → ScrapeOutcome)
    (globalTimeout : Bool) : List Job × List PlatformStatus :=
  scrapeAllPlatforms
    (managerPlatforms.map (fun p => (p.1, callScrapeJobs impl p.2)))
    globalTimeout

/-- The `all_jobs` accumulation of `scrape_specific_platforms` (lines
177-180): extend with every result that is a list, skip the rest. -/
def extendLists : List GatherItem → List Job
  | [] => []
  | .list l :: rest => l ++ extendLists rest
  | .exc _ :: rest => extendLists rest

/-- `scrape_specific_platforms` (lines 148-186): filter the requested
platforms against the registry, return `[]` when none remain, otherwise
gather the safe-wrapped results and deduplicate. -/
def scrapeSpecificPlatforms (registered : List String)
    (platforms : List String) (impl : String → ScrapeOutcome) : List Job :=
  let valid := platforms.filter (fun p => registered.contains p)
  if valid.isEmpty then []
  else
    removeDuplicates (extendLists
      (valid.map (fun p => GatherItem.list (scrapePlatformSafe (impl p)))))

end ScraperManager

/-! ## CareerBuilder adapter (careerbuilder_scraper.py)

`_scrape_core` is synchronous; its network effects are embedded as explicit
inputs: the availability outcome each access layer would report (each
`_is_available*` helper converts network errors into a `(False, reason)`
pair), the per-page fetch result of `_fetch_with_best_method`, and the
per-page batch `_parse_listings` would extract. -/

namespace CareerBuilder

/-- The four access layers of the escalation chain. -/
inductive Layer where
  | direct
  | proxy
  | residential
  | selenium
  deriving Repr, DecidableEq

/-- The `JobItem` dataclass (careerbuilder_scraper.py lines 38-48). -/
structure JobItem where
  portal : String
  job_id : Option String
  title : String
  company : Option String
  location : Option String
  posted_at : Option String
  salary : Option String
  job_url : Option String
  source_url : String
  deriving Repr, DecidableEq

/-- The `jobs` field of `ScrapeResult`: the string `"N/A"` or a list. -/
inductive JobsField where
  | NA
  | items (l : List JobItem)
  deriving Repr, DecidableEq

/-- The `ScrapeResult` dataclass (lines 50-55). -/
structure ScrapeResult where
  portal : String
  available : Bool
  reason : Option String
  jobs : JobsField
  deriving Repr, DecidableEq

/-- `CareerBuilderScraper.PORTAL`. -/
def PORTAL : String := "careerbuilder"

/-- `CareerBuilderScraper.GEO_BLOCKED_COUNTRIES`. -/
def GEO_BLOCKED_COUNTRIES : List String := ["IN"]

/-- Environment of one `_scrape_core` run: configuration flags the code
branches on, the outcome each availability layer would report if probed,
and the fetch/parse behaviour of the result pages. -/
structure CoreEnv where
  countryCode : Option String
  directOk : Bool
  directReason : String
  proxyPoolNonEmpty : Bool
  proxyOk : Bool
  proxyReason : String
  hasResidential : Bool
  residentialOk : Bool
  residentialReason : String
  useSelenium : Bool
  seleniumAvailable : Bool
  seleniumOk : Bool
  seleniumReason : String
  maxPages : Nat
  fetch : Nat → Option String
  parse : Nat → String → List JobItem

/-- The quick local geo check at the top of `_scrape_core` (line 138). -/
def geoBlocked (e : CoreEnv) : Bool :=
  match e.countryCode with
  | some c => GEO_BLOCKED_COUNTRIES.contains c
  | none => false

/-- The layered availability cascade of `_scrape_core` (lines 141-175):
`some reason` when the run returns blocked, `none` when some layer
succeeded and page scraping proceeds.  The nesting mirrors the source
exactly, including which branch each reason string comes from. -/
def availCascade (e : CoreEnv) : Option String :=
  if e.directOk then none
  else if e.proxyPoolNonEmpty then
    if e.proxyOk then none
    else if e.hasResidential then
      if e.residentialOk then none
      else if e.useSelenium && e.seleniumAvailable then
        if e.seleniumOk then none
        else some ("Blocked after all layers: " ++ e.seleniumReason)
      else some ("Blocked after proxies: " ++ e.proxyReason)
    else if e.useSelenium && e.seleniumAvailable then
      if e.seleniumOk then none
      else some ("Blocked after proxy rotation + selenium: " ++ e.seleniumReason)
    else some ("Blocked (proxy rotation failed): " ++ e.proxyReason)
  else if e.useSelenium && e.seleniumAvailable then
    if e.seleniumOk then none
    else some ("Blocked (selenium failed): " ++ e.seleniumReason)
  else some ("Blocked: " ++ e.directReason)

/-- The layers whose availability probe is actually executed by the cascade,
in execution order (derived from the same branch structure). -/
def triedLayers (e : CoreEnv) : List Layer :=
  .direct ::
    (if e.directOk then []
     else if e.proxyPoolNonEmpty then
       .proxy ::
         (if e.proxyOk then []
          else if e.hasResidential then
            .residential ::
              (if e.residentialOk then []
               else if e.useSelenium && e.seleniumAvailable then [.selenium]
               else [])
          else if e.useSelenium && e.seleniumAvailable then [.selenium]
          else [])
     else if e.useSelenium && e.seleniumAvailable then [.selenium]
     else [])

/-- Whether a layer is enabled for a run: direct always; proxy rotation when
a proxy pool was supplied; residential when a provider config is present;
selenium when the caller opted in and selenium is importable. -/
def enabledLayer (e : CoreEnv) : Layer → Bool
  | .direct => true
  | .proxy => e.proxyPoolNonEmpty
  | .residential => e.hasResidential
  | .selenium => e.useSelenium && e.seleniumAvailable

/-- The availability verdict a layer would report. -/
def layerOk (e : CoreEnv) : Layer → Bool
  | .direct => e.directOk
  | .proxy => e.proxyOk
  | .residential => e.residentialOk
  | .selenium => e.seleniumOk

/-- Python truthiness of the fetched page body: `None` and `""` are falsy. -/
def truthyHtml : Option String → Option String
  | none => none
  | some s => if s = "" then none else some s

/-- The page loop of `_scrape_core` (lines 179-196), recursing on the number
of remaining pages of `range(1, max_pages + 1)`.  A falsy body fails the run
on page 1 and ends it quietly later; an empty batch yields the
empty-but-successful result on page 1 and ends the run quietly later. -/
def pageLoop (e : CoreEnv) : Nat → Nat → List JobItem → ScrapeResult
  | _, 0, acc => ⟨PORTAL, true, none, .items acc⟩
  | page, remaining + 1, acc =>
    match truthyHtml (e.fetch page) with
    | none =>
      if page = 1 then ⟨PORTAL, false, some "Failed to load first search page", .NA⟩
      else ⟨PORTAL, true, none, .items acc⟩
    | some html =>
      let batch := e.parse page html
      if batch.isEmpty then
        if page = 1 then ⟨PORTAL, true, some "No results", .items []⟩
        else ⟨PORTAL, true, none, .items acc⟩
      else pageLoop e (page + 1) remaining (acc ++ batch)

/-- `_scrape_core` (lines 134-196): local geo check, availability cascade,
then the page loop. -/
def scrapeCore (e : CoreEnv) : ScrapeResult :=
  if geoBlocked e then
    ⟨PORTAL, false,
      some ("Geo-blocked (local list) in " ++ e.countryCode.getD ""), .NA⟩
  else
    match availCascade e with
    | some reason => ⟨PORTAL, false, some reason, .NA⟩
    | none => pageLoop e 1 e.maxPages []

/-- Whether a `_scrape_core` run touches the network at all: unless the
local geo list short-circuits, the direct-layer probe (`_is_available`,
which issues `_requests_get`) always runs first. -/
def coreMakesNetworkAttempt (e : CoreEnv) : Bool :=
  !(geoBlocked e)

/-- The access layers a whole `_scrape_core` run actually probes: when the
local geo check (line 138) short-circuits, the run returns before the
availability cascade, so no layer is tried at all. -/
def coreTriedLayers (e : CoreEnv) : List Layer :=
  if geoBlocked e then [] else triedLayers e

/-! ### The async `scrape` wrapper and the unavailability cache -/

/-- The dict returned by `CareerBuilderScraper.scrape` (lines 126-131);
`asdict` maps each `JobItem` to an equal-shaped dict, so the field is kept
as a `JobsField`. -/
structure ScrapeDict where
  portal : String
  available : Bool
  reason : Option String
  jobs : JobsField
  deriving Repr, DecidableEq

/-- `self.unavail_cache`: a dict from country code to the timestamp of the
last detected block, modelled as an association list with distinct keys. -/
def Cache := List (String × Int)

/-- Dict lookup `self.unavail_cache[country]`. -/
def cacheLookup (cache : Cache) (c : String) : Option Int :=
  ((cache : List (String × Int)).find? (fun p => p.1 == c)).map (fun p => p.2)

/-- Dict deletion `del self.unavail_cache[country]`. -/
def cacheErase (cache : Cache) (c : String) : Cache :=
  (cache : List (String × Int)).filter (fun p => p.1 != c)

/-- Dict assignment `self.unavail_cache[country] = ts` (overwrites). -/
def cacheInsert (cache : Cache) (c : String) (ts : Int) : Cache :=
  (c, ts) :: cacheErase cache c

/-- Country-code normalization of `scrape` (line 100):
`str(country_code).strip().upper()`. -/
def normCountry (country0 : Option String) : Option String :=
  country0.map (fun s => pyUpper (pyStrip s))

/-- The tail of `scrape` after the cache check (lines 110-131): run
`_scrape_core` with the normalized country, record a fresh cache entry when
the result is unavailable and a country was given, and convert the result
to the returned dict.  The third component reports whether the call made
any network fetch attempt.  (`time.time()` at both read and write sites of
one call is modelled by the single call-time `now`.) -/
def scrapeCoreCall (cache : Cache) (now : Int) (country : Option String)
    (e : CoreEnv) : ScrapeDict × Cache × Bool :=
  let e2 := { e with countryCode := country }
  let result := scrapeCore e2
  let cache2 :=
    match country with
    | some c => if result.available then cache else cacheInsert cache c now
    | none => cache
  (⟨result.portal, result.available, result.reason, result.jobs⟩, cache2,
    coreMakesNetworkAttempt e2)

/-- `CareerBuilderScraper.scrape` (lines 81-131): normalize the country,
consult the unavailability cache (a fresh entry short-circuits with the
fixed cache reason and no network call; a stale entry is deleted), then run
the core. -/
def scrape (cache : Cache) (now : Int) (country0 : Option String)
    (ttl : Int) (e : CoreEnv) : ScrapeDict × Cache × Bool :=
  match normCountry country0 with
  | some c =>
    match cacheLookup cache c with
    | some ts =>
      if now - ts < ttl then
        (⟨PORTAL, false, some ("Recently detected unavailable in " ++ c), .NA⟩,
          cache, false)
      else scrapeCoreCall (cacheErase cache c) now (some c) e
    | none => scrapeCoreCall cache now (some c) e
  | none => scrapeCoreCall cache now none e

/-- One parsed result card of `_parse_listings` (lines 362-392), at the
selector boundary: each field holds what the corresponding BeautifulSoup
lookup would produce (`none` for a missing element/attribute; the
data-attribute/text merges of the source are already applied). -/
structure CBCard where
  titleText : Option String
  titleHref : Option String
  dataJobId : Option String
  titleDataJobId : Option String
  companyText : Option String
  locationVal : Option String
  postedAt : Option String
  salaryVal : Option String
  deriving Repr, DecidableEq

/-- `urljoin(self.BASE, href)` for `BASE = "https://www.careerbuilder.com/"`
on the hrefs reachable here (relative paths and root-relative paths; hrefs
starting with `http` never reach this call). -/
def urljoinBase (href : String) : String :=
  if pyStartsWith href "/" then "https://www.careerbuilder.com" ++ href
  else "https://www.careerbuilder.com/" ++ href

/-- The loop of `_parse_listings`: a card with no title anchor is skipped
(`continue`); the job URL is the href when absolute, the base-joined href
when relative and non-empty, and `None` when the anchor has no usable
href. -/
def parseListings : List CBCard → String → List JobItem
  | [], _ => []
  | card :: rest, src =>
    match card.titleText with
    | none => parseListings rest src
    | some title =>
      let job_url : Option String :=
        match card.titleHref with
        | some h =>
          if pyStartsWith h "http" then some h
          else if h != "" then some (urljoinBase h)
          else none
        | none => none
      let job_id := pyOrStr card.dataJobId card.titleDataJobId
      ⟨PORTAL, job_id, title, card.companyText, card.locationVal,
        card.postedAt, card.salaryVal, job_url, src⟩ :: parseListings rest src

end CareerBuilder

/-! ## Indeed adapter (indeed_scraper.py)

`_extract_job_data` (lines 148-212) is embedded over an abstract job card
holding what each BeautifulSoup lookup would produce.  Python's built-in
`hash` is an explicit parameter. -/

namespace Indeed

/-- The title element found by the three title selectors: its `title`
attribute (`.get('title', '')`, so `""` when absent) and its stripped
text. -/
structure TitleElem where
  titleAttr : String
  text : String
  deriving Repr, DecidableEq

/-- An Indeed job card at the selector boundary.  `jobLinkHref` is the
`href` of the `a[data-jk]` link; `none` covers both a missing link element
and a link without `href` (the source tests `job_link and
job_link.get('href')`, and an empty href is falsy too). -/
structure Card where
  titleElem : Option TitleElem
  companyText : Option String
  locationText : Option String
  jobLinkHref : Option String
  salaryText : Option String
  descriptionText : Option String
  dateText : Option String
  deriving Repr, DecidableEq

/-- The job dict built by `_extract_job_data` (lines 194-208). -/
structure JobDict where
  id : String
  title : String
  company : String
  location : String
  description : String
  requirements : List String
  skills : List String
  posted_date : String
  source : String
  url : String
  salary : Option String
  job_type : String
  experience_level : String
  deriving Repr, DecidableEq

/-- `self.base_url` of `IndeedScraper`. -/
def base_url : String := "https://www.indeed.com"

/-- The skill list of `_extract_requirements_from_text` (lines 233-239). -/
def techSkills : List String :=
  ["Python", "JavaScript", "Java", "React", "Node.js", "Angular", "Vue",
   "TypeScript", "PHP", "Ruby", "Go", "Rust", "C++", "C#", "Swift",
   "HTML", "CSS", "SQL", "PostgreSQL", "MySQL", "MongoDB", "Redis",
   "AWS", "Azure", "GCP", "Docker", "Kubernetes", "Git", "Jenkins",
   "Django", "Flask", "Spring", "Express", "Laravel", "Rails"]

/-- `_extract_requirements_from_text` (lines 227-248). -/
def extractRequirementsFromText (text : String) : List String :=
  if text = "" then []
  else
    let textLower := text.toLower
    (techSkills.filter (fun sk => strContainsSub textLower sk.toLower)).take 10

/-- `_extract_experience_level` (lines 250-259). -/
def extractExperienceLevel (text : String) : String :=
  let t := text.toLower
  if ["senior", "lead", "principal", "staff"].any (fun w => strContainsSub t w)
  then "Senior"
  else if ["junior", "entry", "graduate", "intern"].any
      (fun w => strContainsSub t w)
  then "Junior"
  else "Mid-level"

/-- `_extract_job_data` (lines 148-212): `none` models the `return None`
paths (no title element, or empty title).  The URL is `base_url + href`
when the card has a link with a truthy href, and stays `""` otherwise —
there is no fallback synthesis. -/
def extractJobData (pyHash : String → Int) (card : Card) : Option JobDict :=
  match card.titleElem with
  | none => none
  | some te =>
    let title := if te.titleAttr != "" then te.titleAttr else te.text
    if title = "" then none
    else
      let company := card.companyText.getD "Unknown Company"
      let location := card.locationText.getD "Unknown Location"
      let job_url :=
        match card.jobLinkHref with
        | some href => if href != "" then base_url ++ href else ""
        | none => ""
      let description := card.descriptionText.getD ""
      let requirements := extractRequirementsFromText (title ++ " " ++ description)
      some
        { id := "indeed_" ++
            toString (pyHash (if job_url != "" then job_url else title ++ company)),
          title := title,
          company := company,
          location := location,
          description := description,
          requirements := requirements,
          skills := requirements,
          posted_date := card.dateText.getD "Unknown",
          source := "Indeed",
          url := job_url,
          salary := card.salaryText,
          job_type := "Full-time",
          experience_level := extractExperienceLevel (title ++ " " ++ description) }

end Indeed

/-! ## LinkedIn and Glassdoor adapters: degraded-mode sample records

`LinkedInScraper.scrape` (linkedin_scraper.py lines 69-87) and
`GlassdoorScraper.scrape` (glassdoor_scraper.py lines 62-76) fall back to
fabricated sample jobs when every real strategy produced nothing.  Real
strategies are embedded by the job lists they would deliver (each strategy
catches its own errors and returns `[]` on failure); `time.time()` and
`random.randint` become the explicit inputs `now` and `rnd`. -/

namespace LinkedIn

/-- A LinkedIn job dict as built by the scraper, with the
`platform_specific` sub-dict flattened into the last four fields. -/
structure LIJob where
  id : String
  title : String
  company : String
  location : String
  description : String
  requirements : List String
  skills : List String
  match_score : Nat
  posted_date : String
  source : String
  url : String
  salary : String
  job_type : String
  experience_level : String
  is_easy_apply : Bool
  company_size : String
  linkedin_job_id : String
  extraction_source : String
  deriving Repr, DecidableEq

/-- `base_titles` of `_create_sample_linkedin_jobs` (lines 548-557). -/
def baseTitles : List String :=
  ["Software Engineer", "Senior Developer", "Product Manager",
   "Data Scientist", "DevOps Engineer", "Full Stack Developer",
   "Technical Lead", "Solutions Architect"]

/-- `companies` of `_create_sample_linkedin_jobs`. -/
def sampleCompanies : List String :=
  ["Microsoft", "Google", "Amazon", "Meta", "Apple", "Netflix",
   "Salesforce", "Adobe"]

/-- `locations` of `_create_sample_linkedin_jobs`. -/
def sampleLocations : List String :=
  ["San Francisco, CA", "Seattle, WA", "New York, NY", "Austin, TX",
   "Remote"]

/-- `_create_sample_linkedin_jobs` (lines 544-608): fabricates
`min(count, 8)` sample jobs.  `rnd lo hi` stands for `random.randint(lo,
hi)` (the model reuses one draw per bound pair). -/
def createSampleLinkedinJobs (skills : List String) (count : Nat)
    (now : Nat) (rnd : Nat → Nat → Nat) : List LIJob :=
  (List.range (min count baseTitles.length)).map (fun i =>
    let baseTitle := baseTitles.getD i ""
    let title :=
      match skills with
      | [] => baseTitle
      | s :: _ => s ++ " " ++ baseTitle
    { id := "linkedin_sample_" ++ toString now ++ "_" ++ toString i,
      title := title,
      company := sampleCompanies.getD (i % sampleCompanies.length) "",
      location := sampleLocations.getD (i % sampleLocations.length) "",
      description := "We are seeking a talented " ++ title ++
        " to join our innovative team. The ideal candidate will have expertise in " ++
        String.intercalate ", " (skills.take 3) ++
        " and a passion for building scalable solutions. This role offers excellent growth opportunities and competitive compensation.",
      requirements :=
        [match skills with
         | [] => "3+ years experience"
         | s :: _ => "3+ years experience with " ++ s,
         "Bachelor\x27s degree in Computer Science or related field"],
      skills := skills,
      match_score := 90,
      posted_date := toString (rnd 1 7) ++ " days ago",
      source := "LinkedIn",
      url := "https://www.linkedin.com/jobs/view/sample-" ++ toString i,
      salary := "$" ++ toString (rnd 80 150) ++ "K - $" ++
        toString (rnd 150 250) ++ "K",
      job_type := "Full-time",
      experience_level :=
        if strContainsSub title "Senior" then "Senior level" else "Mid level",
      is_easy_apply := true,
      company_size := toString (rnd 100 10000) ++ "+ employees",
      linkedin_job_id := "sample_" ++ toString i,
      extraction_source := "sample" })

/-- `LinkedInScraper.scrape` (lines 69-87): public scraping, then the
alternative URLs, then — unconditionally, with no opt-in flag — the
fabricated sample jobs whenever both real strategies produced nothing. -/
def scrape (publicJobs altJobs : List LIJob) (skills : List String)
    (maxJobs : Nat) (now : Nat) (rnd : Nat → Nat → Nat) : List LIJob :=
  let jobs := publicJobs
  let jobs2 := if jobs.isEmpty then altJobs else jobs
  if jobs2.isEmpty then createSampleLinkedinJobs skills maxJobs now rnd
  else jobs2

end LinkedIn

namespace Glassdoor

/-- A Glassdoor job dict, with `platform_specific.company_rating`
flattened into the last field. -/
structure GDJob where
  id : String
  title : String
  company : String
  location : String
  description : String
  requirements : List String
  skills : List String
  match_score : Nat
  posted_date : String
  source : String
  url : String
  salary : String
  job_type : String
  experience_level : String
  company_rating : String
  deriving Repr, DecidableEq

/-- `titles` of `_create_sample_glassdoor_jobs` (line 264). -/
def sampleTitles : List String :=
  ["Software Engineer", "Data Scientist", "Product Manager"]

/-- `companies` of `_create_sample_glassdoor_jobs` (line 265). -/
def sampleCompanies : List String := ["Google", "Microsoft", "Amazon"]

/-- `_create_sample_glassdoor_jobs` (glassdoor_scraper.py lines 262-284):
fabricates `min(count, 3)` sample jobs. -/
def createSampleGlassdoorJobs (skills : List String) (count : Nat)
    (now : Nat) (rnd : Nat → Nat → Nat) : List GDJob :=
  (List.range (min count sampleTitles.length)).map (fun i =>
    { id := "glassdoor_sample_" ++ toString now ++ "_" ++ toString i,
      title := sampleTitles.getD i "",
      company := sampleCompanies.getD i "",
      location := "Remote",
      description := "Work on " ++ sampleTitles.getD i "" ++ " projects.",
      requirements := ["Experience required"],
      skills := skills,
      match_score := rnd 70 95,
      posted_date := "1 day ago",
      source := "Glassdoor",
      url := "https://www.glassdoor.com/sample-job",
      salary := "Not disclosed",
      job_type := "Full-time",
      experience_level := "Mid level",
      company_rating := "4.2" })

/-- `GlassdoorScraper.scrape` (lines 62-76): authenticated scraping, then —
only when not logged in — anonymous scraping, then unconditionally the
fabricated sample jobs whenever everything produced nothing. -/
def scrape (authJobs anonJobs : List GDJob) (loggedIn : Bool)
    (skills : List String) (maxJobs : Nat) (now : Nat)
    (rnd : Nat → Nat → Nat) : List GDJob :=
  let jobs := authJobs
  let jobs2 := if jobs.isEmpty && !loggedIn then anonJobs else jobs
  if jobs2.isEmpty then createSampleGlassdoorJobs skills maxJobs now rnd
  else jobs2

end Glassdoor

/-! ## Concrete fixtures used by counterexamples and witnesses -/

/-- A baseline core environment: no country, direct access succeeds, no
proxies, no residential provider, selenium off, one result page that fails
to fetch. -/
def testEnv : CareerBuilder.CoreEnv :=
  { countryCode := none
    directOk := true
    directReason := ""
    proxyPoolNonEmpty := false
    proxyOk := false
    proxyReason := ""
    hasResidential := false
    residentialOk := false
    residentialReason := ""
    useSelenium := false
    seleniumOk := false
    seleniumAvailable := false
    seleniumReason := ""
    maxPages := 1
    fetch := fun _ => none
    parse := fun _ _ => [] }

/-- A run where direct access fails, no proxy pool was supplied, a
residential provider is configured (and would even succeed), selenium is
off. -/
def c4CexEnv : CareerBuilder.CoreEnv :=
  { testEnv with
    directOk := false
    directReason := "403 Access denied"
    hasResidential := true
    residentialOk := true }

/-- A run where direct, proxy rotation and the residential provider all
fail and selenium is off. -/
def c4WitnessEnv : CareerBuilder.CoreEnv :=
  { testEnv with
    directOk := false
    directReason := "403 Access denied"
    proxyPoolNonEmpty := true
    proxyOk := false
    proxyReason := "All proxies failed or blocked"
    hasResidential := true
    residentialOk := false
    residentialReason := "Residential proxy blocked or failed" }

/-- A reachable run whose first (and only) page fetches fine but parses to
zero records. -/
def c9Env : CareerBuilder.CoreEnv :=
  { testEnv with fetch := fun _ => some "page", parse := fun _ _ => [] }

/-- An Indeed job card with a valid title and company but no `a[data-jk]`
link. -/
def cardNoLink : Indeed.Card :=
  { titleElem := some ⟨"", "Software Engineer"⟩
    companyText := some "Acme"
    locationText := none
    jobLinkHref := none
    salaryText := none
    descriptionText := none
    dateText := none }

/-- The same card with a relative job link. -/
def cardWithLink : Indeed.Card :=
  { cardNoLink with jobLinkHref := some "/rc/clk" }

/-- The record `_extract_job_data` produces for `cardWithLink`. -/
def recordWithLink : Indeed.JobDict :=
  match Indeed.extractJobData (fun _ => 0) cardWithLink with
  | some r => r
  | none => ⟨"", "", "", "", "", [], [], "", "", "", none, "", ""⟩

/-- A CareerBuilder result card whose title anchor has no `href`. -/
def cbCardNoHref : CareerBuilder.CBCard :=
  { titleText := some "Backend Developer"
    titleHref := none
    dataJobId := none
    titleDataJobId := none
    companyText := none
    locationVal := none
    postedAt := none
    salaryVal := none }

/-! ## Theorems -/

open ScraperManager

/-- Helper: one pass of the dedup loop leaves its own output fixed, for any
starting seen-sets. -/
theorem removeDuplicatesGo_idem (l : List Job) (su sc : List String) :
    removeDuplicatesGo (removeDuplicatesGo l su sc) su sc
      = removeDuplicatesGo l su sc := by
  induction l generalizing su sc with
  | nil => rfl
  | cons j rest ih =>
    by_cases h : j.url ∈ su ∨ jobCombination j ∈ sc
    · simp [removeDuplicatesGo, h, ih]
    · simp [removeDuplicatesGo, h, ih]

/-- Claim C10: the orchestrator's deduplication is idempotent — applying
`_remove_duplicates` twice yields exactly the result of applying it once. -/
theorem remove_duplicates_idempotent (jobs : List Job) :
    removeDuplicates (removeDuplicates jobs) = removeDuplicates jobs :=
  removeDuplicatesGo_idem jobs [] []

/-- Helper: the classification loop over safe-wrapped list results yields
the concatenated jobs and one success status per adapter. -/
theorem collectLoop_map_list (g : String × ScrapeOutcome → List Job)
    (scrapers : List (String × ScrapeOutcome)) :
    collectLoop (scrapers.map (fun p => (p.1, GatherItem.list (g p))))
      = ((scrapers.map g).flatten,
         scrapers.map (fun p =>
           ⟨p.1, "success", (g p).length, none⟩)) := by
  induction scrapers with
  | nil => rfl
  | cons p rest ih => simp [collectLoop, ih]

/-- Claim C2 counterexample: a harvest over one adapter whose coroutine
raises produces zero failure-status entries, not one — the safe wrapper
swallows the exception before classification. -/
theorem harvest_failed_entries_cex :
    ¬ (failedStatusCount
          ((scrapeAllPlatforms [("indeed", .exn "boom")] false).2)
        = failingCount [("indeed", .exn "boom")]) := by
  decide

/-- Claim C2 (amended): in `scrape_all_platforms`, each failing adapter
contributes zero records and never aborts the sibling adapters or the
overall call — but it yields one SUCCESS-status entry with zero jobs (the
exception is swallowed inside `_scrape_platform_safe`), so the
failure-status list is always empty; and when the single global 120 s
timeout fires, every adapter is likewise reported as success with zero
jobs. -/
theorem harvest_all_statuses_success
    (scrapers : List (String × ScrapeOutcome)) :
    (scrapeAllPlatforms scrapers false).2
      = scrapers.map (fun p =>
          ⟨p.1, "success", (scrapePlatformSafe p.2).length, none⟩)
    ∧ (scrapeAllPlatforms scrapers false).1
      = removeDuplicates
          ((scrapers.map (fun p => scrapePlatformSafe p.2)).flatten)
    ∧ (scrapeAllPlatforms scrapers true).2
      = scrapers.map (fun p => ⟨p.1, "success", 0, none⟩)
    ∧ (scrapeAllPlatforms scrapers true).1 = [] := by
  have hf : (scrapers.map fun p => (p.1, gatherOutcome false p.2))
      = scrapers.map (fun p =>
          (p.1, GatherItem.list (scrapePlatformSafe p.2))) := by
    simp [gatherOutcome]
  have ht : (scrapers.map fun p => (p.1, gatherOutcome true p.2))
      = scrapers.map (fun p => (p.1, GatherItem.list ([] : List Job))) := by
    simp [gatherOutcome]
  have hjoin : ((scrapers.map fun _ => ([] : List Job)).flatten) = [] := by
    induction scrapers with
    | nil => rfl
    | cons p rest ih => simp [ih]
  refine ⟨?_, ?_, ?_, ?_⟩
  · simp [scrapeAllPlatforms, hf,
      collectLoop_map_list (fun p => scrapePlatformSafe p.2)]
  · simp [scrapeAllPlatforms, hf,
      collectLoop_map_list (fun p => scrapePlatformSafe p.2)]
  · simp [scrapeAllPlatforms, ht,
      collectLoop_map_list (fun _ => ([] : List Job))]
  · simp [scrapeAllPlatforms, ht,
      collectLoop_map_list (fun _ => ([] : List Job)), hjoin,
      removeDuplicates, removeDuplicatesGo]

/-- Claim C3: for every call to `scrape_all_platforms` — whatever the
Indeed coroutine does — the LinkedIn and Glassdoor scrapers contribute zero
records: the manager invokes `scrape_jobs`, which only `IndeedScraper`
defines, the `AttributeError` is caught by the safe wrapper, and both
platforms are reported as success with zero jobs. -/
theorem manager_linkedin_glassdoor_zero (impl : Platform → ScrapeOutcome) :
    (scrapeAllPlatformsManager impl false).2
      = [⟨"indeed", "success",
            (scrapePlatformSafe (impl .indeed)).length, none⟩,
         ⟨"linkedin", "success", 0, none⟩,
         ⟨"glassdoor", "success", 0, none⟩]
    ∧ (scrapeAllPlatformsManager impl false).1
      = removeDuplicates (scrapePlatformSafe (impl .indeed)) := by
  constructor <;>
    simp [scrapeAllPlatformsManager, scrapeAllPlatforms, managerPlatforms,
      callScrapeJobs, definesScrapeJobs, collectLoop, gatherOutcome,
      scrapePlatformSafe]

/-- Helper: extending `all_jobs` with list-shaped gather results is list
concatenation. -/
theorem extendLists_map_list {α : Type} (f : α → List Job) (xs : List α) :
    extendLists (xs.map (fun x => GatherItem.list (f x)))
      = (xs.map f).flatten := by
  induction xs with
  | nil => rfl
  | cons x rest ih => simp [extendLists, ih]

/-- Claim C5 counterexample: a request that resolves zero adapters returns
the plain empty list — exactly the value a normal all-successful call with
no records returns, not a distinct error result, and nothing is raised. -/
theorem specific_platforms_not_distinct_cex :
    scrapeSpecificPlatforms ["indeed", "linkedin", "glassdoor"] ["monster"]
        (fun _ => .ok [])
      = scrapeSpecificPlatforms ["indeed", "linkedin", "glassdoor"] ["indeed"]
        (fun _ => .ok [])
    ∧ scrapeSpecificPlatforms ["indeed", "linkedin", "glassdoor"] ["monster"]
        (fun _ => .ok []) = [] := by
  decide

/-- Claim C5 (amended): `scrape_specific_platforms` never raises and never
produces a distinguished error value: with zero adapters resolved it
returns the empty list (indistinguishable from a normal empty result), and
otherwise — even when some or all adapters fail — it returns the normal
deduplicated concatenation of the safe per-adapter results. -/
theorem specific_platforms_amended (registered platforms : List String)
    (impl : String → ScrapeOutcome) :
    scrapeSpecificPlatforms registered platforms impl
      = (if (platforms.filter (fun p => registered.contains p)).isEmpty
         then []
         else removeDuplicates
           (((platforms.filter (fun p => registered.contains p)).map
               (fun p => scrapePlatformSafe (impl p))).flatten)) := by
  unfold scrapeSpecificPlatforms
  by_cases h :
      (platforms.filter (fun p => registered.contains p)).isEmpty = true
  · rw [if_pos h, if_pos h]
  · rw [if_neg h, if_neg h,
      extendLists_map_list (fun p => scrapePlatformSafe (impl p))]

/-- Claim C4 counterexample: with direct access failing, an empty proxy
pool, a configured residential provider (which would even succeed) and
selenium off, `_scrape_core` reports overall failure with the direct
layer's reason while the enabled residential layer was never tried. -/
theorem access_chain_skips_residential_cex :
    CareerBuilder.availCascade c4CexEnv = some "Blocked: 403 Access denied"
    ∧ CareerBuilder.enabledLayer c4CexEnv .residential = true
    ∧ (CareerBuilder.triedLayers c4CexEnv).contains .residential = false :=
  ⟨rfl, rfl, rfl⟩

set_option maxHeartbeats 1600000 in
/-- Claim C4 (amended): the escalation chain tries direct, then proxy
rotation (only if a pool was supplied), then residential (only if
configured AND a pool was supplied), then selenium (only if enabled and
available); every tried layer is enabled, a later layer runs only after
the earlier tried layers failed, and overall failure is reported exactly
when every TRIED layer failed — enabled layers can be skipped (residential
whenever the proxy pool is empty), and when residential is the last tried
layer the reported reason is the proxy-rotation layer's reason, not the
residential reason. -/
theorem access_chain_amended (e : CareerBuilder.CoreEnv) :
    ((CareerBuilder.availCascade e).isSome
      = (CareerBuilder.triedLayers e).all
          (fun l => !(CareerBuilder.layerOk e l)))
    ∧ ((CareerBuilder.triedLayers e).all
          (fun l => CareerBuilder.enabledLayer e l) = true)
    ∧ (e.hasResidential = true → e.proxyPoolNonEmpty = false →
        (CareerBuilder.triedLayers e).contains .residential = false)
    ∧ (e.directOk = false → e.proxyPoolNonEmpty = true → e.proxyOk = false →
        e.hasResidential = true → e.residentialOk = false →
        (e.useSelenium && e.seleniumAvailable) = false →
        CareerBuilder.availCascade e
          = some ("Blocked after proxies: " ++ e.proxyReason)) := by
  obtain ⟨cc, dOk, dR, pne, pOk, pR, hR, rOk, rR, uS, sA, sOk, sR, mp, f, pr⟩ := e
  cases dOk <;> cases pne <;> cases pOk <;> cases hR <;> cases rOk <;>
    cases uS <;> cases sA <;> cases sOk <;>
    simp [CareerBuilder.availCascade, CareerBuilder.triedLayers,
      CareerBuilder.layerOk, CareerBuilder.enabledLayer]

/-- Claim C4 witness: in a run where direct, proxy rotation and residential
all fail with selenium off, the amended theorem yields the proxy-layer
reason. -/
theorem access_chain_amended_witness :
    CareerBuilder.availCascade c4WitnessEnv
      = some ("Blocked after proxies: " ++ "All proxies failed or blocked") :=
  (access_chain_amended c4WitnessEnv).2.2.2 rfl rfl rfl rfl rfl rfl

/-- Claim C6 counterexample: region "IN" acquires cache entries, yet after
its entry expires the next call does NOT perform a fresh probe starting
from the first access layer — the purged call hits the hard-coded local
geo-block list, makes zero network fetch attempts and tries no access
layer at all. -/
theorem unavail_cache_expiry_geo_cex :
    CareerBuilder.scrape [("IN", 0)] 1000 (some "IN") 300 testEnv
      = (⟨CareerBuilder.PORTAL, false,
            some "Geo-blocked (local list) in IN", .NA⟩,
          [("IN", 1000)], false)
    ∧ CareerBuilder.coreTriedLayers
        { testEnv with countryCode := some (pyUpper (pyStrip "IN")) } = [] :=
  ⟨rfl, rfl⟩

/-- Claim C6 (amended): a cache entry for the normalized region younger
than the TTL makes `scrape` return the cached-unavailable dict immediately
with no network attempt and an unchanged cache; once the entry is older
than the TTL, it is purged and the call re-runs `_scrape_core` — which
performs a fresh probe whose first tried layer is the direct layer ONLY
when the region is not on the hard-coded local geo-block list; for a
listed region the post-expiry call makes zero network attempts, tries no
access layer, and just re-reports the local geo-block. -/
theorem unavail_cache_ttl_amended (cache : CareerBuilder.Cache)
    (now ttl ts : Int) (c : String) (e : CareerBuilder.CoreEnv)
    (hc : CareerBuilder.cacheLookup cache (pyUpper (pyStrip c)) = some ts) :
    (now - ts < ttl →
      CareerBuilder.scrape cache now (some c) ttl e
        = (⟨CareerBuilder.PORTAL, false,
              some ("Recently detected unavailable in " ++ pyUpper (pyStrip c)),
              .NA⟩,
            cache, false))
    ∧ (¬ (now - ts < ttl) →
      CareerBuilder.scrape cache now (some c) ttl e
        = CareerBuilder.scrapeCoreCall
            (CareerBuilder.cacheErase cache (pyUpper (pyStrip c))) now
            (some (pyUpper (pyStrip c))) e
      ∧ (CareerBuilder.GEO_BLOCKED_COUNTRIES.contains (pyUpper (pyStrip c))
            = false →
          (CareerBuilder.scrapeCoreCall
              (CareerBuilder.cacheErase cache (pyUpper (pyStrip c))) now
              (some (pyUpper (pyStrip c))) e).2.2 = true
          ∧ CareerBuilder.coreTriedLayers
                { e with countryCode := some (pyUpper (pyStrip c)) }
              = CareerBuilder.triedLayers
                  { e with countryCode := some (pyUpper (pyStrip c)) }
          ∧ (CareerBuilder.coreTriedLayers
                { e with countryCode := some (pyUpper (pyStrip c)) }).head?
              = some .direct)
      ∧ (CareerBuilder.GEO_BLOCKED_COUNTRIES.contains (pyUpper (pyStrip c))
            = true →
          (CareerBuilder.scrapeCoreCall
              (CareerBuilder.cacheErase cache (pyUpper (pyStrip c))) now
              (some (pyUpper (pyStrip c))) e).2.2 = false
          ∧ CareerBuilder.coreTriedLayers
                { e with countryCode := some (pyUpper (pyStrip c)) } = []
          ∧ CareerBuilder.scrapeCore
                { e with countryCode := some (pyUpper (pyStrip c)) }
              = ⟨CareerBuilder.PORTAL, false,
                  some ("Geo-blocked (local list) in " ++ pyUpper (pyStrip c)),
                  .NA⟩)) := by
  have hn : CareerBuilder.normCountry (some c) = some (pyUpper (pyStrip c)) :=
    rfl
  constructor
  · intro h
    simp only [CareerBuilder.scrape, hn, hc, if_pos h]
  · intro h
    refine ⟨?_, ?_, ?_⟩
    · simp only [CareerBuilder.scrape, hn, hc, if_neg h]
    · intro hg
      have hm : pyUpper (pyStrip c) ∉ CareerBuilder.GEO_BLOCKED_COUNTRIES := by
        simpa using hg
      refine ⟨?_, ?_, ?_⟩
      · show CareerBuilder.coreMakesNetworkAttempt
            { e with countryCode := some (pyUpper (pyStrip c)) } = true
        simp [CareerBuilder.coreMakesNetworkAttempt, CareerBuilder.geoBlocked,
          hm]
      · simp [CareerBuilder.coreTriedLayers, CareerBuilder.geoBlocked, hm]
      · rw [show CareerBuilder.coreTriedLayers
              { e with countryCode := some (pyUpper (pyStrip c)) }
            = CareerBuilder.triedLayers
                { e with countryCode := some (pyUpper (pyStrip c)) } from by
          simp [CareerBuilder.coreTriedLayers, CareerBuilder.geoBlocked, hm]]
        rfl
    · intro hg
      have hm : pyUpper (pyStrip c) ∈ CareerBuilder.GEO_BLOCKED_COUNTRIES := by
        simpa using hg
      refine ⟨?_, ?_, ?_⟩
      · show CareerBuilder.coreMakesNetworkAttempt
            { e with countryCode := some (pyUpper (pyStrip c)) } = false
        simp [CareerBuilder.coreMakesNetworkAttempt, CareerBuilder.geoBlocked,
          hm]
      · simp [CareerBuilder.coreTriedLayers, CareerBuilder.geoBlocked, hm]
      · simp [CareerBuilder.scrapeCore, CareerBuilder.geoBlocked, hm]

/-- Claim C6 witness: a fresh entry for "GB" short-circuits; a stale "GB"
entry leads to a fresh network probe; a stale "IN" entry leads to a run
that tries no access layer. -/
theorem unavail_cache_ttl_amended_witness :
    CareerBuilder.scrape [("GB", 100)] 200 (some "GB") 300 testEnv
      = (⟨CareerBuilder.PORTAL, false,
            some ("Recently detected unavailable in " ++ pyUpper (pyStrip "GB")),
            .NA⟩,
          [("GB", 100)], false)
    ∧ (CareerBuilder.scrapeCoreCall
          (CareerBuilder.cacheErase [("GB", 100)] (pyUpper (pyStrip "GB"))) 600
          (some (pyUpper (pyStrip "GB"))) testEnv).2.2 = true
    ∧ CareerBuilder.coreTriedLayers
        { testEnv with countryCode := some (pyUpper (pyStrip "IN")) } = [] :=
  ⟨(unavail_cache_ttl_amended [("GB", 100)] 200 300 100 "GB" testEnv
      (by decide)).1 (by decide),
   (((unavail_cache_ttl_amended [("GB", 100)] 600 300 100 "GB" testEnv
      (by decide)).2 (by decide)).2.1 (by decide)).1,
   (((unavail_cache_ttl_amended [("IN", 0)] 1000 300 0 "IN" testEnv
      (by decide)).2 (by decide)).2.2 (by decide)).2.1⟩

/-- Claim C7 counterexample: with the source blocked for region "IN" and
TTL 300, the second call within the TTL makes zero network fetch attempts —
but its block-reason string is the fixed cache message, not the first
call's reason (the cache stores only a timestamp, never the reason). -/
theorem cached_block_reason_differs_cex :
    (CareerBuilder.scrape [] 1000 (some "IN") 300 testEnv).1.reason
        = some "Geo-blocked (local list) in IN"
    ∧ (CareerBuilder.scrape [] 1000 (some "IN") 300 testEnv).2.1
        = [("IN", 1000)]
    ∧ (CareerBuilder.scrape [("IN", 1000)] 1100 (some "IN") 300
          testEnv).1.reason
        = some "Recently detected unavailable in IN"
    ∧ (CareerBuilder.scrape [("IN", 1000)] 1100 (some "IN") 300
          testEnv).2.2 = false
    ∧ (some "Geo-blocked (local list) in IN" : Option String)
        ≠ some "Recently detected unavailable in IN" :=
  ⟨rfl, rfl, rfl, rfl, by decide⟩

/-- Claim C7 (amended): for a source blocked in region "IN" with TTL 300,
any second call within 300 seconds of the first makes zero network fetch
attempts and returns the fixed cache message "Recently detected unavailable
in IN" — a different string from the first call's block reason
"Geo-blocked (local list) in IN". -/
theorem cached_block_second_call_amended (now1 now2 : Int)
    (h : now2 - now1 < 300) :
    (CareerBuilder.scrape [] now1 (some "IN") 300 testEnv).1.reason
        = some "Geo-blocked (local list) in IN"
    ∧ CareerBuilder.scrape
          ((CareerBuilder.scrape [] now1 (some "IN") 300 testEnv).2.1)
          now2 (some "IN") 300 testEnv
        = (⟨CareerBuilder.PORTAL, false,
              some "Recently detected unavailable in IN", .NA⟩,
            [("IN", now1)], false) := by
  refine ⟨rfl, ?_⟩
  have h1 : CareerBuilder.scrape [("IN", now1)] now2 (some "IN") 300 testEnv
      = if now2 - now1 < 300
        then (⟨CareerBuilder.PORTAL, false,
                some "Recently detected unavailable in IN",
                CareerBuilder.JobsField.NA⟩,
              [("IN", now1)], false)
        else CareerBuilder.scrapeCoreCall
              (CareerBuilder.cacheErase [("IN", now1)] "IN") now2 (some "IN")
              testEnv := rfl
  show CareerBuilder.scrape [("IN", now1)] now2 (some "IN") 300 testEnv = _
  rw [h1, if_pos h]

/-- Claim C7 witness: the amended behaviour at concrete call times 0 and
10. -/
theorem cached_block_second_call_amended_witness :
    CareerBuilder.scrape
        ((CareerBuilder.scrape [] 0 (some "IN") 300 testEnv).2.1)
        10 (some "IN") 300 testEnv
      = (⟨CareerBuilder.PORTAL, false,
            some "Recently detected unavailable in IN", .NA⟩,
          [("IN", 0)], false) :=
  (cached_block_second_call_amended 0 10 (by decide)).2

/-- Claim C9: in the adapter's page iteration, a reachable page parsing to
zero records yields the empty-but-successful "No results" outcome on page
1, and on any later page simply stops the iteration without error, keeping
the records accumulated so far. -/
theorem zero_record_page_semantics (e : CareerBuilder.CoreEnv)
    (html : String)
    (hgeo : CareerBuilder.geoBlocked e = false)
    (hav : CareerBuilder.availCascade e = none)
    (hmp : 1 ≤ e.maxPages)
    (h1 : CareerBuilder.truthyHtml (e.fetch 1) = some html)
    (hp : e.parse 1 html = []) :
    CareerBuilder.scrapeCore e
      = ⟨CareerBuilder.PORTAL, true, some "No results", .items []⟩
    ∧ (∀ page remaining acc html2, 2 ≤ page →
        CareerBuilder.truthyHtml (e.fetch page) = some html2 →
        e.parse page html2 = [] →
        CareerBuilder.pageLoop e page (remaining + 1) acc
          = ⟨CareerBuilder.PORTAL, true, none, .items acc⟩) := by
  constructor
  · obtain ⟨r, hr⟩ : ∃ r, e.maxPages = r + 1 :=
      ⟨e.maxPages - 1, by omega⟩
    simp [CareerBuilder.scrapeCore, hgeo, hav, hr, CareerBuilder.pageLoop,
      h1, hp]
  · intro page remaining acc html2 hpage hfetch hparse
    have hne : page ≠ 1 := by omega
    simp [CareerBuilder.pageLoop, hfetch, hparse, hne]

/-- Claim C9 witness: a concrete reachable run whose only page parses to
zero records returns the empty-but-successful result. -/
theorem zero_record_page_semantics_witness :
    CareerBuilder.scrapeCore c9Env
      = ⟨CareerBuilder.PORTAL, true, some "No results", .items []⟩ :=
  (zero_record_page_semantics c9Env "page" rfl rfl (by decide) rfl rfl).1

/-- Helper: a string with a non-empty character list stays non-empty under
append. -/
theorem string_append_ne_empty (a b : String) (ha : a.data ≠ []) :
    a ++ b ≠ "" := by
  intro hc
  apply ha
  have hd := congrArg String.data hc
  rw [String.data_append] at hd
  exact (List.append_eq_nil.mp hd).1

/-- Helper: a string starting with "http" is not empty. -/
theorem pyStartsWith_http_ne_empty (h : String)
    (hs : pyStartsWith h "http" = true) : h ≠ "" := by
  intro hc
  subst hc
  exact absurd hs (by decide)

/-- Claim C1 counterexample: an Indeed card with a title but no
`a[data-jk]` link yields a record whose `url` is the empty string, and a
CareerBuilder card whose title anchor has no `href` yields a record whose
`job_url` is `None` — no fallback query URL is synthesized. -/
theorem extract_job_url_empty_cex :
    (Indeed.extractJobData (fun _ => 0) cardNoLink).map (fun r => r.url)
      = some ""
    ∧ (CareerBuilder.parseListings [cbCardNoHref] "s").map
        (fun j => j.job_url) = [none] :=
  ⟨rfl, rfl⟩

/-- Claim C1 (amended): extraction keeps whatever URL the page supplied.
An Indeed record's `url` is empty exactly when the card has no link href
(or an empty one), and is `base_url ++ href` otherwise; a CareerBuilder
record's `job_url` is `None` when the title anchor has no usable href, and
every produced `job_url` is either `None` or a non-empty string.  No
fallback query URL is ever substituted. -/
theorem extract_job_url_amended :
    (∀ (h : String → Int) (card : Indeed.Card) (r : Indeed.JobDict),
      Indeed.extractJobData h card = some r →
      ((r.url = "") ↔ (card.jobLinkHref = none ∨ card.jobLinkHref = some ""))
      ∧ (∀ hr, card.jobLinkHref = some hr → hr ≠ "" →
          r.url = Indeed.base_url ++ hr))
    ∧ (∀ (card : CareerBuilder.CBCard) (src t : String),
        card.titleText = some t → card.titleHref = none →
        (CareerBuilder.parseListings [card] src).map (fun j => j.job_url)
          = [none])
    ∧ (∀ (cards : List CareerBuilder.CBCard) (src : String)
        (j : CareerBuilder.JobItem),
        j ∈ CareerBuilder.parseListings cards src →
        j.job_url = none ∨ ∃ u, j.job_url = some u ∧ u ≠ "") := by
  refine ⟨?_, ?_, ?_⟩
  · intro h card r hre
    obtain ⟨te, cT, lT, jL, sT, dT, dtT⟩ := card
    cases te with
    | none => simp [Indeed.extractJobData] at hre
    | some te0 =>
      simp only [Indeed.extractJobData] at hre
      by_cases ht :
          (if te0.titleAttr != "" then te0.titleAttr else te0.text) = ""
      · rw [if_pos ht] at hre
        exact absurd hre (by simp)
      · rw [if_neg ht] at hre
        simp only [Option.some.injEq] at hre
        subst hre
        cases jL with
        | none => simp
        | some href =>
          by_cases hh : href = ""
          · subst hh
            simp
          · constructor
            · simp only [hh]
              refine iff_of_false ?_ (by simp [hh])
              simp only [bne_iff_ne, ne_eq, hh, not_false_eq_true, if_true]
              exact string_append_ne_empty _ _ (by decide)
            · intro hr hinj hhr
              simp only [Option.some.injEq] at hinj
              subst hinj
              simp [hh]
  · intro card src t h1 h2
    obtain ⟨tt, th, dj, tdj, ct, lv, pa, sv⟩ := card
    simp only at h1 h2
    subst h1
    subst h2
    simp [CareerBuilder.parseListings]
  · intro cards src
    induction cards with
    | nil =>
      intro j hj
      simp [CareerBuilder.parseListings] at hj
    | cons card rest ih =>
      intro j hj
      obtain ⟨tt, th, dj, tdj, ct, lv, pa, sv⟩ := card
      cases tt with
      | none => exact ih j (by simpa [CareerBuilder.parseListings] using hj)
      | some t =>
        simp only [CareerBuilder.parseListings] at hj
        rcases List.mem_cons.mp hj with hEq | hMem
        · subst hEq
          cases th with
          | none => exact Or.inl rfl
          | some h2 =>
            by_cases hsw : pyStartsWith h2 "http" = true
            · exact Or.inr ⟨h2, by simp [hsw],
                pyStartsWith_http_ne_empty h2 hsw⟩
            · by_cases hne : h2 = ""
              · subst hne
                exact Or.inl (by simp [hsw])
              · refine Or.inr ⟨CareerBuilder.urljoinBase h2,
                  by simp [hsw, hne], ?_⟩
                unfold CareerBuilder.urljoinBase
                split
                · exact string_append_ne_empty _ _ (by decide)
                · exact string_append_ne_empty _ _ (by decide)
        · exact ih j hMem

/-- Claim C1 witness: an Indeed card with a relative link href produces a
record whose url is the base url joined with the href. -/
theorem extract_job_url_amended_witness :
    recordWithLink.url = Indeed.base_url ++ "/rc/clk" :=
  ((extract_job_url_amended).1 (fun _ => 0) cardWithLink recordWithLink
    rfl).2 "/rc/clk" rfl (by decide)

/-- Claim C8: when every real access strategy yields no records, both the
LinkedIn and the Glassdoor scraper return the fabricated sample jobs — a
non-empty list whenever at least one job was requested — with no opt-in
flag anywhere in the control flow. -/
theorem synthetic_placeholder_fallback (skills : List String)
    (maxJobs now : Nat) (rnd : Nat → Nat → Nat) (loggedIn : Bool)
    (h : 1 ≤ maxJobs) :
    LinkedIn.scrape [] [] skills maxJobs now rnd
        = LinkedIn.createSampleLinkedinJobs skills maxJobs now rnd
    ∧ LinkedIn.scrape [] [] skills maxJobs now rnd ≠ []
    ∧ Glassdoor.scrape [] [] loggedIn skills maxJobs now rnd
        = Glassdoor.createSampleGlassdoorJobs skills maxJobs now rnd
    ∧ Glassdoor.scrape [] [] loggedIn skills maxJobs now rnd ≠ [] := by
  have hL : LinkedIn.scrape [] [] skills maxJobs now rnd
      = LinkedIn.createSampleLinkedinJobs skills maxJobs now rnd := by
    simp [LinkedIn.scrape]
  have hG : Glassdoor.scrape [] [] loggedIn skills maxJobs now rnd
      = Glassdoor.createSampleGlassdoorJobs skills maxJobs now rnd := by
    cases loggedIn <;> simp [Glassdoor.scrape]
  have hLn : LinkedIn.createSampleLinkedinJobs skills maxJobs now rnd
      ≠ [] := by
    simp only [LinkedIn.createSampleLinkedinJobs, ne_eq, List.map_eq_nil_iff,
      List.range_eq_nil, LinkedIn.baseTitles, List.length_cons,
      List.length_nil]
    omega
  have hGn : Glassdoor.createSampleGlassdoorJobs skills maxJobs now rnd
      ≠ [] := by
    simp only [Glassdoor.createSampleGlassdoorJobs, ne_eq, List.map_eq_nil_iff,
      List.range_eq_nil, Glassdoor.sampleTitles, List.length_cons,
      List.length_nil]
    omega
  exact ⟨hL, hL ▸ hLn, hG, hG ▸ hGn⟩

/-- Claim C8 witness: concrete fully-failed runs return non-empty sample
lists. -/
theorem synthetic_placeholder_fallback_witness :
    LinkedIn.scrape [] [] ["Python"] 1 0 (fun a _ => a) ≠ []
    ∧ Glassdoor.scrape [] [] false ["Python"] 1 0 (fun a _ => a) ≠ [] :=
  ⟨(synthetic_placeholder_fallback ["Python"] 1 0 (fun a _ => a) false
      (by decide)).2.1,
   (synthetic_placeholder_fallback ["Python"] 1 0 (fun a _ => a) false
      (by decide)).2.2.2⟩

end JobMatcher
